import Mathlib

/-!
Shallow embedding of the core of `win_shmem_multi_window`
(windows/runner/{dart_port_manager, shared_memory_manager,
window_count_listener}.{h,cpp}) and verification of the frozen claims
about it.

Conventions of the embedding:
* `LONG` (Windows signed 32-bit) and `Dart_Port_DL` (int64) are modelled
  as `Int`; wraparound of the 32-bit atomic counter ops is made explicit
  through `int32wrap`.
* The external Dart runtime call `Dart_PostCObject_DL(port, msg)` is
  modelled by an oracle `postOk : Int → Bool` giving, per port, whether
  the post succeeds; each attempted post is recorded as a `PostCall`
  together with its success bit.  Logging to stdout/stderr has no
  observable effect on program state and is dropped.
* The Windows OS calls made by `SharedMemoryManager::CreateSharedMemory`
  (CreateFileMappingA / MapViewOfFile / CreateEventA) are modelled by an
  `OsEnv` record describing the outcome of each call, so the
  initialization paths (creator / attacher / failures) can be followed
  exactly as in the source.
-/

/-- Windows `LONG`: signed 32-bit integer, modelled as `Int`. -/
abbrev LONG := Int

/-- Dart port identifier (`int64_t` in `dart_api_dl.h`), modelled as `Int`. -/
abbrev Dart_Port_DL := Int

/-- Reduction of an `Int` to the representable range of a signed 32-bit
integer, `[-2^31, 2^31)`: the semantics of `InterlockedIncrement` /
`InterlockedDecrement` on a `LONG`. -/
def int32wrap (x : Int) : Int :=
  (x + 2147483648) % 4294967296 - 2147483648

/-- `InterlockedIncrement` on a `LONG`: adds 1, wrapping at `2^31 - 1`,
and returns the new value. -/
def InterlockedIncrement (x : Int) : Int := int32wrap (x + 1)

/-- `InterlockedDecrement` on a `LONG`: subtracts 1, wrapping at `-2^31`,
and returns the new value. -/
def InterlockedDecrement (x : Int) : Int := int32wrap (x - 1)

/-! ## DartPortManager (dart_port_manager.cpp) -/

/-- One attempted `Dart_PostCObject_DL(port, &message)` call, with the
message's `value.as_int64` payload (the `Dart_CObject` is always of type
`Dart_CObject_kInt64` in this code base). -/
structure PostCall where
  port : Dart_Port_DL
  value : Int
  deriving Repr, DecidableEq

/-- State of a `DartPortManager`: the `ports_` vector.  The mutex only
serializes access and has no sequential-semantics content. -/
structure DartPortManager where
  ports : List Dart_Port_DL
  deriving Repr, DecidableEq

/-- Result of `DartPortManager::RegisterPort`: the `bool` return value,
the manager state afterwards, and the posts attempted during the call
(each paired with its success bit from the `postOk` oracle). -/
structure RegisterResult where
  ret : Bool
  mgr : DartPortManager
  posts : List (PostCall × Bool)
  deriving Repr, DecidableEq

namespace DartPortManager

/-- `DartPortManager::RegisterPort(port, initial_count)`
(dart_port_manager.cpp:37-65): unconditionally `push_back`s the port,
then, when `initial_count >= 0`, attempts a single
`Dart_PostCObject_DL(port, &message)` with the initial count; the
result of that post only affects logging.  Returns `true` always. -/
def RegisterPort (postOk : Dart_Port_DL → Bool) (m : DartPortManager)
    (port : Dart_Port_DL) (initial_count : LONG) : RegisterResult :=
  let m' : DartPortManager := ⟨m.ports ++ [port]⟩
  let posts :=
    if initial_count ≥ 0 then [((⟨port, initial_count⟩ : PostCall), postOk port)]
    else []
  ⟨true, m', posts⟩

/-- `DartPortManager::UnregisterPort(port)` (dart_port_manager.cpp:67-83):
`std::find` + `erase` of the first occurrence; returns whether the port
was found. -/
def UnregisterPort (m : DartPortManager) (port : Dart_Port_DL) :
    Bool × DartPortManager :=
  if port ∈ m.ports then (true, ⟨m.ports.eraseP (fun q => q == port)⟩)
  else (false, m)

/-- The broadcast loop of `NotifyWindowCountChanged`
(dart_port_manager.cpp:116-125): for each registered port, in order,
attempt `Dart_PostCObject_DL(port, &message)`; a failed post is only
logged, the loop continues. -/
def notifyLoop (postOk : Dart_Port_DL → Bool) (value : Int) :
    List Dart_Port_DL → List (PostCall × Bool)
  | [] => []
  | p :: rest => ((⟨p, value⟩ : PostCall), postOk p) :: notifyLoop postOk value rest

/-- `DartPortManager::NotifyWindowCountChanged(new_count)`
(dart_port_manager.cpp:85-126): early return when `ports_` is empty;
otherwise builds one `Dart_CObject_kInt64` message carrying `new_count`
and posts it to every registered port via `notifyLoop`.  The registry is
never modified. -/
def NotifyWindowCountChanged (postOk : Dart_Port_DL → Bool)
    (m : DartPortManager) (new_count : LONG) :
    DartPortManager × List (PostCall × Bool) :=
  if m.ports.isEmpty then (m, [])
  else (m, notifyLoop postOk new_count m.ports)

end DartPortManager

/-- The posts attempted by the broadcast loop are exactly one per
registered port, in registry order, carrying the broadcast value; the
success oracle influences only the recorded success bit, never whether
the remaining ports are attempted. -/
lemma notifyLoop_eq_map (postOk : Dart_Port_DL → Bool) (value : Int)
    (ports : List Dart_Port_DL) :
    DartPortManager.notifyLoop postOk value ports
      = ports.map (fun p => ((⟨p, value⟩ : PostCall), postOk p)) := by
  induction ports with
  | nil => rfl
  | cons p rest ih => simp [DartPortManager.notifyLoop, ih]

/-- `NotifyWindowCountChanged` leaves the registry unchanged. -/
lemma notify_state (postOk : Dart_Port_DL → Bool) (m : DartPortManager)
    (new_count : LONG) :
    (DartPortManager.NotifyWindowCountChanged postOk m new_count).1 = m := by
  unfold DartPortManager.NotifyWindowCountChanged
  split <;> rfl

/-- The attempted posts of `NotifyWindowCountChanged` are one per
registered port, also in the early-return empty case. -/
lemma notify_posts (postOk : Dart_Port_DL → Bool) (m : DartPortManager)
    (new_count : LONG) :
    (DartPortManager.NotifyWindowCountChanged postOk m new_count).2
      = m.ports.map (fun p => ((⟨p, new_count⟩ : PostCall), postOk p)) := by
  unfold DartPortManager.NotifyWindowCountChanged
  cases h : m.ports with
  | nil => simp [h]
  | cons a rest => simp [h, notifyLoop_eq_map]

/-- Counting, among the posts of a broadcast, those addressed to a fixed
port `p` recovers the number of occurrences of `p` in the registry. -/
lemma posts_to_port_count (postOk : Dart_Port_DL → Bool) (value p : Int)
    (ports : List Dart_Port_DL) :
    ((ports.map (fun q => ((⟨q, value⟩ : PostCall), postOk q))).filter
        (fun e => e.1.port == p)).length = ports.count p := by
  induction ports with
  | nil => rfl
  | cons a rest ih =>
    by_cases h : a = p
    · simp [List.count_cons, h, ih]
    · simp [List.count_cons, h, ih]

/-! ## SharedMemoryManager (shared_memory_manager.cpp) -/

/-- The 16-byte shared segment layout (shared_memory_manager.h:14-17):
the window counter and three reserved DWORDs; `reserved[0]` is used as
the magic marker `0xDEADBEEF` by the creator. -/
structure SharedMemoryData where
  window_count : Int
  reserved0 : Nat
  reserved1 : Nat
  reserved2 : Nat
  deriving Repr, DecidableEq

/-- Outcome of the `CreateFileMappingA` create-or-open call:
failure (null handle), fresh creation, or opening of an existing
segment carrying its current contents (`GetLastError() ==
ERROR_ALREADY_EXISTS`). -/
inductive CreateMappingResult where
  | failed
  | created
  | openedExisting (seg : SharedMemoryData)
  deriving Repr, DecidableEq

/-- Outcome of the OS calls issued by one run of `CreateSharedMemory`:
the mapping call, whether `MapViewOfFile` succeeds, and whether
`CreateEventA` succeeds. -/
structure OsEnv where
  mapping : CreateMappingResult
  mapViewOk : Bool
  createEventOk : Bool
  deriving Repr, DecidableEq

/-- State of a `SharedMemoryManager` instance
(shared_memory_manager.h:94-97): whether `shared_memory_handle_` is
non-null, the content seen through `shared_data_` (`none` = null
pointer), `is_initialized_`, and whether `update_event_` is non-null. -/
structure SharedMemoryManager where
  has_handle : Bool
  shared_data : Option SharedMemoryData
  is_initialized : Bool
  has_event : Bool
  deriving Repr, DecidableEq

namespace SharedMemoryManager

/-- The freshly constructed manager (shared_memory_manager.cpp:19-27):
all handles null, not initialized. -/
def mk0 : SharedMemoryManager := ⟨false, none, false, false⟩

/-- `SharedMemoryManager::CreateSharedMemory`
(shared_memory_manager.cpp:89-185).  Mirrors the source paths:
`CreateFileMappingA` failure returns `false`; `MapViewOfFile` failure
closes the handle and returns `false`; on success, a creator
(`already_exists == false`) writes `count = 0`, the `0xDEADBEEF`
marker and zeroed reserved words, while an attacher preserves the
existing contents; finally `CreateEventA` is attempted and its failure
is tolerated (the function still returns `true`). -/
def CreateSharedMemory (os : OsEnv) (m : SharedMemoryManager) :
    Bool × SharedMemoryManager :=
  match os.mapping with
  | CreateMappingResult.failed => (false, { m with has_handle := false })
  | CreateMappingResult.created =>
    if os.mapViewOk then
      (true, { m with
        has_handle := true
        shared_data := some ⟨0, 3735928559, 0, 0⟩
        has_event := os.createEventOk })
    else
      (false, { m with has_handle := false, shared_data := none })
  | CreateMappingResult.openedExisting seg =>
    if os.mapViewOk then
      (true, { m with
        has_handle := true
        shared_data := some seg
        has_event := os.createEventOk })
    else
      (false, { m with has_handle := false, shared_data := none })

/-- `SharedMemoryManager::Initialize` (shared_memory_manager.cpp:33-46):
immediate success when already initialized; otherwise runs
`CreateSharedMemory` and sets `is_initialized_` only on its success. -/
def Initialize (os : OsEnv) (m : SharedMemoryManager) :
    Bool × SharedMemoryManager :=
  if m.is_initialized then (true, m)
  else
    let r := CreateSharedMemory os m
    if r.1 then (true, { r.2 with is_initialized := true })
    else (false, r.2)

/-- Result of an increment/decrement call: the returned `LONG`, the
manager state afterwards, and whether `SetEvent(update_event_)` was
called. -/
structure OpResult where
  ret : LONG
  mgr : SharedMemoryManager
  signaled : Bool
  deriving Repr, DecidableEq

/-- `SharedMemoryManager::IncrementWindowCount`
(shared_memory_manager.cpp:48-63): sentinel `-1` when
`!is_initialized_ || !shared_data_`; otherwise `InterlockedIncrement`
on the shared counter, then `SetEvent` when `update_event_` is
non-null, returning the new count. -/
def IncrementWindowCount (m : SharedMemoryManager) : OpResult :=
  match m.is_initialized, m.shared_data with
  | true, some data =>
    let new_count := InterlockedIncrement data.window_count
    ⟨new_count,
     { m with shared_data := some { data with window_count := new_count } },
     m.has_event⟩
  | _, _ => ⟨-1, m, false⟩

/-- `SharedMemoryManager::DecrementWindowCount`
(shared_memory_manager.cpp:65-80): symmetric to the increment, using
`InterlockedDecrement`. -/
def DecrementWindowCount (m : SharedMemoryManager) : OpResult :=
  match m.is_initialized, m.shared_data with
  | true, some data =>
    let new_count := InterlockedDecrement data.window_count
    ⟨new_count,
     { m with shared_data := some { data with window_count := new_count } },
     m.has_event⟩
  | _, _ => ⟨-1, m, false⟩

/-- `SharedMemoryManager::GetWindowCount`
(shared_memory_manager.cpp:82-87): returns 0 when `shared_data_` is
null, otherwise the (non-atomically read) counter. -/
def GetWindowCount (m : SharedMemoryManager) : LONG :=
  match m.shared_data with
  | none => 0
  | some data => data.window_count

end SharedMemoryManager

/-- `CreateSharedMemory` never writes `is_initialized_`: only
`Initialize` (and `Cleanup`) touch that flag in the source. -/
lemma createSharedMemory_preserves_init (os : OsEnv) (m : SharedMemoryManager) :
    (SharedMemoryManager.CreateSharedMemory os m).2.is_initialized
      = m.is_initialized := by
  unfold SharedMemoryManager.CreateSharedMemory
  cases os.mapping <;> cases h : os.mapViewOk <;> simp [h]

/-! ## WindowCountListener (window_count_listener.cpp) -/

/-- Outcome of one `WaitForSingleObject(update_event_, kWaitTimeout)`
call inside the listener loop: `WAIT_OBJECT_0`, `WAIT_TIMEOUT`, or any
other (unexpected failure) code. -/
inductive WaitResult where
  | object0
  | timeout
  | failed
  deriving Repr, DecidableEq

/-- State of a `WindowCountListener` (window_count_listener.h:100-103)
as far as the sequential loop semantics observes it: whether
`update_event_` is non-null, the atomic `is_running_` flag, and whether
a callback is set.  The thread object itself carries no data. -/
structure WindowCountListener where
  has_event : Bool
  is_running : Bool
  has_callback : Bool
  deriving Repr, DecidableEq

/-- How one run of the listener loop ended: `exited` when the loop
terminated (its `while` condition became false or it hit a `break`);
`outOfScript` when the supplied finite script of wait outcomes was
exhausted while the loop would still continue. -/
inductive LoopOutcome where
  | exited
  | outOfScript
  deriving Repr, DecidableEq

namespace WindowCountListener

/-- `WindowCountListener::IsRunning` (window_count_listener.cpp:75-77). -/
def IsRunning (l : WindowCountListener) : Bool := l.is_running

/-- `WindowCountListener::Stop` (window_count_listener.cpp:50-69):
no-op when not running; otherwise clears `is_running_`, signals the
event and joins the thread (the signal/join have no effect on the
modelled fields). -/
def Stop (l : WindowCountListener) : WindowCountListener :=
  if l.is_running then { l with is_running := false } else l

/-- `WindowCountListener::ListenerThreadFunction`
(window_count_listener.cpp:79-124), driven by a finite script giving
the outcome of each successive `WaitForSingleObject` call.  Per source:
while `is_running_`: wait; re-check `is_running_` (a concurrent `Stop`
is not modelled, so the flag is unchanged here); on `WAIT_OBJECT_0`
sleep, reset the event and invoke the callback inside a try/catch
(none of which writes the modelled fields), then continue; on
`WAIT_TIMEOUT` continue; on any other result log the error and
`break` — crucially without touching `is_running_`. -/
def ListenerThreadFunction (l : WindowCountListener) :
    List WaitResult → WindowCountListener × LoopOutcome
  | [] => if l.is_running then (l, LoopOutcome.outOfScript) else (l, LoopOutcome.exited)
  | r :: rest =>
    if l.is_running then
      match r with
      | WaitResult.object0 => ListenerThreadFunction l rest
      | WaitResult.timeout => ListenerThreadFunction l rest
      | WaitResult.failed => (l, LoopOutcome.exited)
    else (l, LoopOutcome.exited)

end WindowCountListener

/-! ## Claims about DartPortManager -/

/-- C1, counterexample: the claim that re-registering an
already-registered port leaves it occurring exactly once, with at most
one message delivered to it per broadcast, is false.  Starting from a
registry already holding port 7, `RegisterPort(7, 0)` makes port 7
occur twice, and a subsequent `NotifyWindowCountChanged(3)` posts two
messages to port 7. -/
theorem C1_duplicate_registration_counterexample :
    ((DartPortManager.RegisterPort (fun _ => true) ⟨[7]⟩ 7 0).mgr.ports.count 7 = 2)
    ∧ (((DartPortManager.NotifyWindowCountChanged (fun _ => true)
          (DartPortManager.RegisterPort (fun _ => true) ⟨[7]⟩ 7 0).mgr 3).2.filter
          (fun e => e.1.port == 7)).length = 2) := by
  decide

/-- C1, amended: `RegisterPort` never deduplicates.  Re-registering a
port appends a fresh occurrence, so after `RegisterPort(p, v)` the port
`p` occurs one more time than before, and a subsequent
`NotifyWindowCountChanged` posts one message to `p` per occurrence —
in particular two or more messages when `p` was already registered. -/
theorem C1_register_appends_and_notify_posts_per_occurrence
    (postOk : Dart_Port_DL → Bool) (m : DartPortManager) (p v c : Int) :
    ((DartPortManager.RegisterPort postOk m p v).mgr.ports.count p
        = m.ports.count p + 1)
    ∧ (((DartPortManager.NotifyWindowCountChanged postOk
          (DartPortManager.RegisterPort postOk m p v).mgr c).2.filter
          (fun e => e.1.port == p)).length = m.ports.count p + 1) := by
  refine ⟨by simp [DartPortManager.RegisterPort], ?_⟩
  rw [notify_posts, DartPortManager.RegisterPort]
  simp only [posts_to_port_count]
  simp [List.count_append]

/-- C4: when an initial value `v ≥ 0` is supplied, `RegisterPort(p, v)`
attempts exactly one post — addressed to the new port `p` and carrying
`v` — and posts nothing to any other handle (the initial delivery is
not a broadcast). -/
theorem C4_initial_value_delivered_to_new_port_only
    (postOk : Dart_Port_DL → Bool) (m : DartPortManager) (p v : Int)
    (h : v ≥ 0) :
    ((DartPortManager.RegisterPort postOk m p v).posts
        = [((⟨p, v⟩ : PostCall), postOk p)])
    ∧ (∀ q, q ≠ p →
        ((DartPortManager.RegisterPort postOk m p v).posts.filter
          (fun e => e.1.port == q)) = []) := by
  constructor
  · simp [DartPortManager.RegisterPort, h]
  · intro q hq
    simp [DartPortManager.RegisterPort, h, List.filter, Ne.symm hq]

/-- Witness for C4 at the concrete input of §8 of the spec: registering
port 9 with initial value 5 on a registry already holding port 4 posts
exactly one message, value 5 to port 9, and none to port 4. -/
theorem C4_witness :
    ((DartPortManager.RegisterPort (fun _ => true) ⟨[4]⟩ 9 5).posts
        = [((⟨9, 5⟩ : PostCall), true)])
    ∧ ((DartPortManager.RegisterPort (fun _ => true) ⟨[4]⟩ 9 5).posts.filter
        (fun e => e.1.port == 4) = []) :=
  ⟨(C4_initial_value_delivered_to_new_port_only (fun _ => true) ⟨[4]⟩ 9 5
      (by decide)).1,
   (C4_initial_value_delivered_to_new_port_only (fun _ => true) ⟨[4]⟩ 9 5
      (by decide)).2 4 (by decide)⟩

/-- C5: `NotifyWindowCountChanged` attempts delivery to each registered
handle independently: whatever the per-port success oracle, the
attempted posts are exactly one per registered handle (so a failure at
one handle never suppresses the attempt at another), and the registry
is left entirely unchanged (failing handles included). -/
theorem C5_broadcast_fault_isolation (postOk : Dart_Port_DL → Bool)
    (m : DartPortManager) (c : LONG) :
    ((DartPortManager.NotifyWindowCountChanged postOk m c).1 = m)
    ∧ ((DartPortManager.NotifyWindowCountChanged postOk m c).2
        = m.ports.map (fun p => ((⟨p, c⟩ : PostCall), postOk p))) :=
  ⟨notify_state postOk m c, notify_posts postOk m c⟩

/-- C9: a negative `initial_count` is the "no initial value" encoding:
`RegisterPort(p, v)` with `v < 0` adds `p` to the registry but attempts
no post at all. -/
theorem C9_negative_initial_count_no_post (postOk : Dart_Port_DL → Bool)
    (m : DartPortManager) (p v : Int) (h : v < 0) :
    ((DartPortManager.RegisterPort postOk m p v).posts = [])
    ∧ ((DartPortManager.RegisterPort postOk m p v).mgr.ports
        = m.ports ++ [p]) := by
  have hv : ¬ (v ≥ 0) := by omega
  exact ⟨by simp [DartPortManager.RegisterPort, hv], by simp [DartPortManager.RegisterPort]⟩

/-- Witness for C9: registering port 9 with initial count −1 posts
nothing and appends the port. -/
theorem C9_witness :
    ((DartPortManager.RegisterPort (fun _ => true) ⟨[4]⟩ 9 (-1)).posts = [])
    ∧ ((DartPortManager.RegisterPort (fun _ => true) ⟨[4]⟩ 9 (-1)).mgr.ports
        = [4, 9]) :=
  ⟨(C9_negative_initial_count_no_post (fun _ => true) ⟨[4]⟩ 9 (-1) (by decide)).1,
   (C9_negative_initial_count_no_post (fun _ => true) ⟨[4]⟩ 9 (-1) (by decide)).2⟩

/-- C10: `RegisterPort` returns `true` unconditionally — for every
success oracle (including one under which the initial-value post
fails), every registry state, every port and every initial count — so
the caller cannot detect a failed initial delivery from the return
value. -/
theorem C10_register_port_always_returns_true (postOk : Dart_Port_DL → Bool)
    (m : DartPortManager) (p v : Int) :
    (DartPortManager.RegisterPort postOk m p v).ret = true := rfl

/-! ## Claims about SharedMemoryManager -/

/-- C3: on an instance whose initialization has not succeeded
(`is_initialized_` false — the state before any `Initialize` call and
after any failed one), `IncrementWindowCount` and
`DecrementWindowCount` return the sentinel −1, leave the state
entirely unchanged and signal no event; moreover a failed `Initialize`
indeed leaves `is_initialized_` false, so the sentinel behaviour
persists after it. -/
theorem C3_sentinel_before_init (m : SharedMemoryManager)
    (h : m.is_initialized = false) :
    ((SharedMemoryManager.IncrementWindowCount m).ret = -1)
    ∧ ((SharedMemoryManager.IncrementWindowCount m).mgr = m)
    ∧ ((SharedMemoryManager.IncrementWindowCount m).signaled = false)
    ∧ ((SharedMemoryManager.DecrementWindowCount m).ret = -1)
    ∧ ((SharedMemoryManager.DecrementWindowCount m).mgr = m)
    ∧ ((SharedMemoryManager.DecrementWindowCount m).signaled = false)
    ∧ (∀ os, (SharedMemoryManager.Initialize os m).1 = false →
        (SharedMemoryManager.Initialize os m).2.is_initialized = false) := by
  refine ⟨?_, ?_, ?_, ?_, ?_, ?_, ?_⟩
  all_goals
    first
    | (cases hd : m.shared_data <;>
        simp [SharedMemoryManager.IncrementWindowCount,
          SharedMemoryManager.DecrementWindowCount, h, hd])
    | skip
  intro os hfail
  unfold SharedMemoryManager.Initialize at hfail ⊢
  simp only [h, Bool.false_eq_true, if_false] at hfail ⊢
  by_cases hc : (SharedMemoryManager.CreateSharedMemory os m).1
  · simp [hc] at hfail
  · simp [hc, createSharedMemory_preserves_init, h]

/-- Witness for C3: on a fresh manager, increment and decrement return
−1 without touching the state, and after an `Initialize` that fails at
`CreateFileMappingA` the flag is still down. -/
theorem C3_witness :
    ((SharedMemoryManager.IncrementWindowCount SharedMemoryManager.mk0).ret = -1)
    ∧ ((SharedMemoryManager.DecrementWindowCount SharedMemoryManager.mk0).mgr
        = SharedMemoryManager.mk0)
    ∧ ((SharedMemoryManager.Initialize ⟨CreateMappingResult.failed, false, false⟩
        SharedMemoryManager.mk0).2.is_initialized = false) :=
  ⟨(C3_sentinel_before_init SharedMemoryManager.mk0 rfl).1,
   (C3_sentinel_before_init SharedMemoryManager.mk0 rfl).2.2.2.2.1,
   (C3_sentinel_before_init SharedMemoryManager.mk0 rfl).2.2.2.2.2.2
     ⟨CreateMappingResult.failed, false, false⟩ (by decide)⟩

/-- C6, counterexample: "the increment returns c+1" fails at the 32-bit
boundary.  On an initialized manager whose counter holds
`c = 2147483647` (INT32_MAX), `IncrementWindowCount` returns
−2147483648, not `c + 1`. -/
theorem C6_increment_wraps_at_int32_max :
    ((SharedMemoryManager.IncrementWindowCount
        ⟨true, some ⟨2147483647, 3735928559, 0, 0⟩, true, true⟩).ret
      = -2147483648)
    ∧ ¬ ((SharedMemoryManager.IncrementWindowCount
        ⟨true, some ⟨2147483647, 3735928559, 0, 0⟩, true, true⟩).ret
      = 2147483647 + 1) := by
  constructor <;> decide

/-- C6, amended: on an initialized manager whose counter holds a
representable `LONG` value `c`, `IncrementWindowCount` followed by
`DecrementWindowCount` (no interleaving) always returns the counter to
`c` — the decrement returns `c` and the final stored count is `c` —
and the increment returns `c + 1` whenever `c < 2^31 − 1` (at
`c = 2^31 − 1` the 32-bit counter wraps to `−2^31` instead). -/
theorem C6_increment_decrement_roundtrip (m : SharedMemoryManager)
    (data : SharedMemoryData)
    (hi : m.is_initialized = true) (hd : m.shared_data = some data)
    (hlo : -2147483648 ≤ data.window_count)
    (hhi : data.window_count < 2147483648) :
    ((SharedMemoryManager.DecrementWindowCount
        (SharedMemoryManager.IncrementWindowCount m).mgr).ret
      = data.window_count)
    ∧ (SharedMemoryManager.GetWindowCount
        (SharedMemoryManager.DecrementWindowCount
          (SharedMemoryManager.IncrementWindowCount m).mgr).mgr
      = data.window_count)
    ∧ (data.window_count < 2147483647 →
        (SharedMemoryManager.IncrementWindowCount m).ret
          = data.window_count + 1) := by
  have hround : InterlockedDecrement (InterlockedIncrement data.window_count)
      = data.window_count := by
    unfold InterlockedDecrement InterlockedIncrement int32wrap
    omega
  refine ⟨?_, ?_, ?_⟩
  · simp [SharedMemoryManager.IncrementWindowCount,
      SharedMemoryManager.DecrementWindowCount, hi, hd, hround]
  · simp [SharedMemoryManager.IncrementWindowCount,
      SharedMemoryManager.DecrementWindowCount,
      SharedMemoryManager.GetWindowCount, hi, hd, hround]
  · intro hlt
    have : InterlockedIncrement data.window_count = data.window_count + 1 := by
      unfold InterlockedIncrement int32wrap
      omega
    simp [SharedMemoryManager.IncrementWindowCount, hi, hd, this]

/-- Witness for C6 (amended) at counter value 5: the round trip returns
5 and leaves 5 stored, and the increment returned 6. -/
theorem C6_witness :
    ((SharedMemoryManager.DecrementWindowCount
        (SharedMemoryManager.IncrementWindowCount
          ⟨true, some ⟨5, 3735928559, 0, 0⟩, true, true⟩).mgr).ret = 5)
    ∧ ((SharedMemoryManager.IncrementWindowCount
        ⟨true, some ⟨5, 3735928559, 0, 0⟩, true, true⟩).ret = 6) :=
  ⟨(C6_increment_decrement_roundtrip
      ⟨true, some ⟨5, 3735928559, 0, 0⟩, true, true⟩ ⟨5, 3735928559, 0, 0⟩
      rfl rfl (by decide) (by decide)).1,
   (C6_increment_decrement_roundtrip
      ⟨true, some ⟨5, 3735928559, 0, 0⟩, true, true⟩ ⟨5, 3735928559, 0, 0⟩
      rfl rfl (by decide) (by decide)).2.2 (by decide)⟩

/-- C7: `Initialize` is idempotent — once a call has succeeded, any
further call returns success and leaves the state (counter, marker,
handles) bit-for-bit unchanged — and on the first-time path only the
creator writes `count = 0` and the `0xDEADBEEF` marker while an
attaching process maps the segment's existing contents untouched. -/
theorem C7_init_idempotent (os1 os2 : OsEnv) (m : SharedMemoryManager) :
    ((SharedMemoryManager.Initialize os1 m).1 = true →
      SharedMemoryManager.Initialize os2 (SharedMemoryManager.Initialize os1 m).2
        = (true, (SharedMemoryManager.Initialize os1 m).2))
    ∧ (∀ seg, os1.mapping = CreateMappingResult.openedExisting seg →
        os1.mapViewOk = true →
        (SharedMemoryManager.CreateSharedMemory os1 m).2.shared_data = some seg)
    ∧ (os1.mapping = CreateMappingResult.created → os1.mapViewOk = true →
        (SharedMemoryManager.CreateSharedMemory os1 m).2.shared_data
          = some ⟨0, 3735928559, 0, 0⟩) := by
  refine ⟨?_, ?_, ?_⟩
  · intro hsucc
    by_cases hi : m.is_initialized
    · simp [SharedMemoryManager.Initialize, hi]
    · by_cases hc : (SharedMemoryManager.CreateSharedMemory os1 m).1
      · simp [SharedMemoryManager.Initialize, hi, hc]
      · simp [SharedMemoryManager.Initialize, hi, hc] at hsucc
  · intro seg hmap hview
    simp [SharedMemoryManager.CreateSharedMemory, hmap, hview]
  · intro hmap hview
    simp [SharedMemoryManager.CreateSharedMemory, hmap, hview]

/-- Witness for C7: a fresh manager, a first `Initialize` in a creator
environment succeeding, a second `Initialize` (under a now-hostile OS
environment) returning success with the state unchanged; and the two
creation-path facts at the same environments. -/
theorem C7_witness :
    ((SharedMemoryManager.Initialize ⟨CreateMappingResult.created, true, true⟩
        SharedMemoryManager.mk0).1 = true)
    ∧ (SharedMemoryManager.Initialize ⟨CreateMappingResult.failed, false, false⟩
        (SharedMemoryManager.Initialize ⟨CreateMappingResult.created, true, true⟩
          SharedMemoryManager.mk0).2
      = (true, (SharedMemoryManager.Initialize
          ⟨CreateMappingResult.created, true, true⟩ SharedMemoryManager.mk0).2))
    ∧ ((SharedMemoryManager.CreateSharedMemory
        ⟨CreateMappingResult.openedExisting ⟨7, 3735928559, 0, 0⟩, true, true⟩
        SharedMemoryManager.mk0).2.shared_data = some ⟨7, 3735928559, 0, 0⟩) :=
  ⟨by decide,
   (C7_init_idempotent ⟨CreateMappingResult.created, true, true⟩
      ⟨CreateMappingResult.failed, false, false⟩ SharedMemoryManager.mk0).1
     (by decide),
   (C7_init_idempotent
      ⟨CreateMappingResult.openedExisting ⟨7, 3735928559, 0, 0⟩, true, true⟩
      ⟨CreateMappingResult.failed, false, false⟩ SharedMemoryManager.mk0).2.1
     ⟨7, 3735928559, 0, 0⟩ rfl rfl⟩

/-- C8: `GetWindowCount` returns 0, without failing, whenever no shared
data is mapped (`shared_data_` null — the state on every instance whose
initialization has not succeeded), and returns the stored counter value
once the segment is mapped. -/
theorem C8_get_window_count (m : SharedMemoryManager) :
    (m.shared_data = none → SharedMemoryManager.GetWindowCount m = 0)
    ∧ (∀ data, m.shared_data = some data →
        SharedMemoryManager.GetWindowCount m = data.window_count) := by
  constructor
  · intro h
    simp [SharedMemoryManager.GetWindowCount, h]
  · intro data h
    simp [SharedMemoryManager.GetWindowCount, h]

/-- Witness for C8: 0 on the fresh (unmapped) manager, and the stored 5
on a mapped one. -/
theorem C8_witness :
    (SharedMemoryManager.GetWindowCount SharedMemoryManager.mk0 = 0)
    ∧ (SharedMemoryManager.GetWindowCount
        ⟨true, some ⟨5, 3735928559, 0, 0⟩, true, true⟩ = 5) :=
  ⟨(C8_get_window_count SharedMemoryManager.mk0).1 rfl,
   (C8_get_window_count ⟨true, some ⟨5, 3735928559, 0, 0⟩, true, true⟩).2
     ⟨5, 3735928559, 0, 0⟩ rfl⟩

/-! ## Claim about WindowCountListener -/

/-- C2: on an unexpected wait failure the loop does terminate, but the
listener is NOT marked stopped: the `break` at
window_count_listener.cpp:119 leaves `is_running_` untouched, so
`IsRunning()` still returns `true` after the thread has exited —
contradicting both the claim and the documented contract of
`IsRunning` ("Returns true if listener thread is currently running",
window_count_listener.h:73).  Evaluation at the failing input: a
running listener whose single wait returns an unexpected failure
code. -/
theorem C2_wait_failure_leaves_running_flag :
    ((WindowCountListener.ListenerThreadFunction ⟨true, true, false⟩
        [WaitResult.failed]).2 = LoopOutcome.exited)
    ∧ (WindowCountListener.IsRunning
        (WindowCountListener.ListenerThreadFunction ⟨true, true, false⟩
          [WaitResult.failed]).1 = true) := by
  decide
